import Mathlib

/-!
Shallow embedding of the task-tracker HTTP API (src/main.rs): a CRUD todo
service over a document store.  Pure layers (identifier codec, error
classifier, request handlers) are translated into Lean functions; the remote
document store is modelled as a `List Todo` state together with explicit
per-call outcomes (`StoreOutcome`) standing for the store's independent
failure modes (network / availability).  Machine integers are `Nat` with
explicit `% 2 ^ 64` or checked partiality where Rust u64 arithmetic can
underflow or overflow.
-/

namespace TaskTracker

instance {ε α : Type} [DecidableEq ε] [DecidableEq α] : DecidableEq (Except ε α) :=
  fun a b =>
  match a, b with
  | .error x, .error y =>
      if h : x = y then .isTrue (by rw [h]) else .isFalse (by simp [h])
  | .error _, .ok _ => .isFalse (by simp)
  | .ok _, .error _ => .isFalse (by simp)
  | .ok x, .ok y =>
      if h : x = y then .isTrue (by rw [h]) else .isFalse (by simp [h])

/-! ### JSON string rendering, modelling serde_json compact output -/

/-- Lowercase hexadecimal digit character for `n < 16` (`0`-`9`, `a`-`f`). -/
def hexDigitChar (n : Nat) : Char :=
  if n < 10 then Char.ofNat (48 + n) else Char.ofNat (87 + n)

/-- Two lowercase hex digits of a byte. -/
def hex2 (n : Nat) : String :=
  String.mk [hexDigitChar (n / 16), hexDigitChar (n % 16)]

/-- serde_json escaping of one character inside a JSON string literal:
quote and backslash are backslash-escaped, the short control escapes
b, t, n, f, r are used where they exist, the remaining control characters
become a lowercase unicode escape, everything else passes through. -/
def escapeChar (c : Char) : String :=
  if c.toNat = 34 then "\\\""
  else if c.toNat = 92 then "\\\\"
  else if c.toNat = 8 then "\\b"
  else if c.toNat = 9 then "\\t"
  else if c.toNat = 10 then "\\n"
  else if c.toNat = 12 then "\\f"
  else if c.toNat = 13 then "\\r"
  else if c.toNat < 32 then "\\u00" ++ hex2 c.toNat
  else String.singleton c

/-- serde_json rendering of a Rust `String` as a JSON string literal. -/
def jsonString (s : String) : String :=
  "\"" ++ String.join (s.data.map escapeChar) ++ "\""

/-! ### Error classifier (`ResErr`, src/main.rs lines 33-69) -/

/-- `enum ResErr` (src/main.rs lines 33-39). -/
inductive ResErr where
  | BadRequest (msg : String)
  | NotFound (msg : String)
  | InvalidObjectId (id : String) (msg : String)
deriving DecidableEq, Repr

/-- The derived serde `Serialize` for `ResErr` uses the default externally
tagged enum representation: `BadRequest(m)` serializes as the one-key object
tagged `BadRequest` holding `m`, likewise `NotFound`; the two-field tuple
variant `InvalidObjectId(id, msg)` serializes as the tag holding the
two-element array.  (The `derive_more::Display` impl on the enum is never
used by `err_msg`.) -/
def serializeResErr : ResErr → String
  | .BadRequest m => "\x7b\"BadRequest\":" ++ jsonString m ++ "\x7d"
  | .NotFound m => "\x7b\"NotFound\":" ++ jsonString m ++ "\x7d"
  | .InvalidObjectId id msg =>
      "\x7b\"InvalidObjectId\":[" ++ jsonString id ++ "," ++ jsonString msg ++ "]\x7d"

/-- `ResErr::err_msg` (src/main.rs lines 43-55): `InvalidObjectId(id, msg)`
builds `json!(\x7b "id": id, "message": msg \x7d)` (serde_json's map is a
BTreeMap, so keys appear sorted: `id` before `message`); every other variant
builds `json!(\x7b "message": other \x7d)` where `other` goes through the
derived `Serialize` above. -/
def ResErr.err_msg : ResErr → String
  | .InvalidObjectId id msg =>
      "\x7b\"id\":" ++ jsonString id ++ ",\"message\":" ++ jsonString msg ++ "\x7d"
  | other => "\x7b\"message\":" ++ serializeResErr other ++ "\x7d"

/-- `ResErr::status_code` (src/main.rs lines 63-68). -/
def ResErr.status_code : ResErr → Nat
  | .BadRequest _ => 400
  | .InvalidObjectId _ _ => 400
  | .NotFound _ => 404

/-! ### Identifier codec: `bson::oid::ObjectId`

An `ObjectId` is 12 bytes; its textual encoding is 24 lowercase hex
characters (`ObjectId::to_hex`), and `ObjectId::parse_str` /
`ObjectId::from_str` accept exactly a 24-character hex string (either case),
reporting a reason otherwise.  The codec is the external `bson` crate; it is
modelled here by its observable contract. -/

/-- A modelled object identifier: its 12 bytes. -/
abbrev Oid := List Nat

/-- Whether a character is a hexadecimal digit (either case). -/
def isHexChar (c : Char) : Bool :=
  (48 ≤ c.toNat && c.toNat ≤ 57) ||
  (97 ≤ c.toNat && c.toNat ≤ 102) ||
  (65 ≤ c.toNat && c.toNat ≤ 70)

/-- Numeric value of a hexadecimal digit character (0 on non-hex input). -/
def hexVal (c : Char) : Nat :=
  if 48 ≤ c.toNat ∧ c.toNat ≤ 57 then c.toNat - 48
  else if 97 ≤ c.toNat ∧ c.toNat ≤ 102 then c.toNat - 87
  else if 65 ≤ c.toNat ∧ c.toNat ≤ 70 then c.toNat - 55
  else 0

/-- Decode pairs of hex digits into bytes. -/
def hexDecode : List Char → List Nat
  | a :: b :: rest => (hexVal a * 16 + hexVal b) :: hexDecode rest
  | _ => []

/-- Render bytes as lowercase hex character pairs. -/
def renderChars : List Nat → List Char
  | [] => []
  | b :: rest => hexDigitChar (b / 16) :: hexDigitChar (b % 16) :: renderChars rest

/-- `ObjectId::to_hex`: the 24-character lowercase hex rendering.  Total: no
failure path. -/
def to_hex (oid : Oid) : String := String.mk (renderChars oid)

/-- `ObjectId::parse_str` (also reached through `ObjectId::from_str`):
succeeds exactly on 24-character hex strings, otherwise reports a reason. -/
def parse_str (s : String) : Except String Oid :=
  if s.length = 24 then
    if s.data.all isHexChar then .ok (hexDecode s.data)
    else .error "invalid character"
  else .error ("invalid length " ++ toString s.length)

/-- Identifiers the store can produce: 12 bytes, each below 256. -/
def ValidOid (oid : Oid) : Prop :=
  oid.length = 12 ∧ ∀ b ∈ oid, b < 256

instance : DecidablePred ValidOid := fun _ =>
  inferInstanceAs (Decidable (_ ∧ _))

/-! ### Data model (src/main.rs lines 120-160, 195-200, 251-254) -/

/-- `struct Todo` (src/main.rs lines 120-125): the persisted entity.  The
`_id` is optional in the Rust struct (absent until persisted). -/
structure Todo where
  _id : Option Oid
  title : String
  is_done : Bool
deriving DecidableEq, Repr

/-- `struct CreateTodo` (src/main.rs lines 136-140). -/
structure CreateTodo where
  title : String
  is_done : Bool
deriving DecidableEq, Repr

/-- `struct UpdateTodo` (src/main.rs lines 195-200). -/
structure UpdateTodo where
  id : String
  title : Option String
  is_done : Option Bool
deriving DecidableEq, Repr

/-- `struct TodosQuery` (src/main.rs lines 156-160): both u64 fields are
optional. -/
structure TodosQuery where
  page_num : Option Nat
  page_size : Option Nat
deriving DecidableEq, Repr

/-- `struct IdResponse` (src/main.rs lines 251-254). -/
structure IdResponse where
  id : String
deriving DecidableEq, Repr

/-! ### Document store model

The collection is a list of documents in natural order.  Each remote call can
also fail independently of the state (network / availability); a call's
outcome is passed explicitly as a `StoreOutcome`, matching the `Ok`/`Err`
match in each handler. -/

/-- Outcome of one remote store call: success, or the store-reported error
message that the handler interpolates into its `BadRequest`. -/
inductive StoreOutcome where
  | ok
  | fail (msg : String)
deriving DecidableEq, Repr

/-- `collection.find_one(doc! \x7b "_id": oid \x7d, None)`: the first
document whose `_id` matches. -/
def find_one (db : List Todo) (oid : Oid) : Option Todo :=
  match db with
  | [] => none
  | t :: rest => if t._id = some oid then some t else find_one rest oid

/-- `collection.update_one(filter, \x7b "$set": \x7b title, is_done \x7d \x7d)`:
rewrites the `title` and `is_done` fields of the first document matching the
`_id` filter, touching nothing else. -/
def update_one_set (db : List Todo) (oid : Oid) (title : String) (is_done : Bool) :
    List Todo :=
  match db with
  | [] => []
  | t :: rest =>
      if t._id = some oid then { t with title := title, is_done := is_done } :: rest
      else t :: update_one_set rest oid title is_done

/-- `collection.delete_one(doc! \x7b "_id": oid \x7d)`: removes the first
document matching the `_id` filter. -/
def delete_one (db : List Todo) (oid : Oid) : List Todo :=
  match db with
  | [] => []
  | t :: rest => if t._id = some oid then rest else t :: delete_one rest oid

/-- `collection.find(None, FindOptions \x7b skip, limit \x7d)` followed by
`try_collect`: the window of at most `limit` documents after skipping
`skip`. -/
def findMany (db : List Todo) (skip limit : Nat) : List Todo :=
  (db.drop skip).take limit

/-! ### u64 arithmetic for the pagination window (src/main.rs line 166) -/

/-- One past the largest u64 value. -/
def U64 : Nat := 2 ^ 64

/-- Debug-build evaluation of the u64 expression
`(page_num - 1) * page_size`: `none` models the panic on underflow (and on
multiplication overflow). -/
def skipChecked (page_num page_size : Nat) : Option Nat :=
  if 1 ≤ page_num then
    if (page_num - 1) * page_size < U64 then some ((page_num - 1) * page_size)
    else none
  else none

/-- Release-build (wrapping, modulo 2^64) evaluation of the same u64
expression. -/
def skipWrapping (page_num page_size : Nat) : Nat :=
  ((page_num + U64 - 1) % U64) * page_size % U64

/-! ### Request handlers (src/main.rs lines 142-249)

Each handler is the pure function of the collection state, the explicit
outcome of each store call it makes in order, and its parsed input.  State-
mutating handlers return the post-state next to the response. -/

/-- `create_todo` (src/main.rs lines 142-154).  `insert` is the store-side
outcome of `insert_one`: on success the store chose the new id and the
acknowledgment carries it as `Bson::ObjectId`; `badAck` is an acknowledgment
whose `inserted_id` is not an ObjectId, with its Debug rendering `dbg`;
`fail` is a store error. -/
inductive InsertOutcome where
  | ok (oid : Oid)
  | badAck (dbg : String)
  | fail (msg : String)
deriving DecidableEq, Repr

def create_todo (db : List Todo) (insert : InsertOutcome) (todo : CreateTodo) :
    List Todo × Except ResErr IdResponse :=
  match insert with
  | .ok oid =>
      (db ++ [⟨some oid, todo.title, todo.is_done⟩], .ok ⟨to_hex oid⟩)
  | .badAck dbg => (db, .error (.BadRequest ("Invalid response: " ++ dbg)))
  | .fail e => (db, .error (.BadRequest ("Failed to create todo: " ++ e)))

/-- `get_todos` (src/main.rs lines 162-176).  `page_size` defaults to 10 and
`page_num` to 1; `skip = (page_num - 1) * page_size` is evaluated in u64
before any store call, so the handler result is `none` (not total) when that
expression underflows; `limit` is `page_size as i64`, value-preserving for
`page_size < 2^63`.  An empty window is a 200 with an empty array. -/
def get_todos (db : List Todo) (find collect : StoreOutcome) (query : TodosQuery) :
    Option (Except ResErr (List Todo)) :=
  let page_size := query.page_size.getD 10
  let page_num := query.page_num.getD 1
  match skipChecked page_num page_size with
  | none => none
  | some skip =>
    match find with
    | .fail e => some (.error (.BadRequest ("Failed to get todos: " ++ e)))
    | .ok =>
      match collect with
      | .fail e => some (.error (.BadRequest ("Failed to query todos: " ++ e)))
      | .ok => some (.ok (findMany db skip page_size))

/-- `get_todo` (src/main.rs lines 178-192): parse the path id, then
`find_one`; a missing document is `NotFound`, a store failure is
`BadRequest`. -/
def get_todo (db : List Todo) (find : StoreOutcome) (id : String) :
    Except ResErr Todo :=
  match parse_str id with
  | .error e => .error (.InvalidObjectId id e)
  | .ok oid =>
    match find with
    | .fail e => .error (.BadRequest ("Unable to perform query: " ++ e))
    | .ok =>
      match find_one db oid with
      | some todo => .ok todo
      | none => .error (.NotFound ("todo with id of " ++ id ++ " is not found"))

/-- `update_todo` (src/main.rs lines 201-224): parse the body id, `find_one`
the current record (absent: `BadRequest "todo not found"`), then `update_one`
with `$set \x7b title = input.title.unwrap_or(current.title), is_done =
input.is_done.unwrap_or(current.is_done) \x7d`. -/
def update_todo (db : List Todo) (find update : StoreOutcome) (todo : UpdateTodo) :
    List Todo × Except ResErr IdResponse :=
  match parse_str todo.id with
  | .error e => (db, .error (.InvalidObjectId todo.id e))
  | .ok oid =>
    match find with
    | .fail e => (db, .error (.BadRequest e))
    | .ok =>
      match find_one db oid with
      | none => (db, .error (.BadRequest "todo not found"))
      | some found =>
        match update with
        | .fail e =>
            (db, .error (.BadRequest
              ("Unable to update todo with id " ++ todo.id ++ ": " ++ e)))
        | .ok =>
            (update_one_set db oid (todo.title.getD found.title)
              (todo.is_done.getD found.is_done),
             .ok ⟨todo.id⟩)

/-- `delete_todo` (src/main.rs lines 226-249): parse the path id, `find_one`
as an existence check (absent: `BadRequest "<id> doesn\x27t exist"`), then
`delete_one`. -/
def delete_todo (db : List Todo) (find del : StoreOutcome) (id : String) :
    List Todo × Except ResErr IdResponse :=
  match parse_str id with
  | .error e => (db, .error (.InvalidObjectId id e))
  | .ok oid =>
    match find with
    | .fail e => (db, .error (.BadRequest e))
    | .ok =>
      if (find_one db oid).isNone then
        (db, .error (.BadRequest (id ++ " doesn\x27t exist")))
      else
        match del with
        | .fail e => (db, .error (.BadRequest e))
        | .ok => (delete_one db oid, .ok ⟨id⟩)

/-! ### Seeder (src/main.rs lines 81-99)

`main` spawns the seeding task only when `args.seed > 0`; the task builds
one `CreateTodo` for every `i` in the inclusive range `0..=args.seed` (each
`is_done` drawn from the thread RNG, modelled by the oracle `rng`), then
flushes the collection with `delete_many(\x7b\x7d)` and bulk-inserts the
batch. -/

/-- The batch built by the loop `for i in 0..=seed`. -/
def seedTodos (rng : Nat → Bool) (seed : Nat) : List CreateTodo :=
  (List.range (seed + 1)).map (fun i => ⟨"Random " ++ toString i, rng i⟩)

/-- Effect of startup on the collection contents (as the seeded documents):
flush-then-seed when `seed > 0`, untouched when `seed = 0`. -/
def seeder_main (rng : Nat → Bool) (seed : Nat) (db : List CreateTodo) :
    List CreateTodo :=
  if seed > 0 then seedTodos rng seed else db

/-- A sample store-produced identifier, the bytes of
`0123456789abcdef01234567`, used to instantiate theorems. -/
def oidW : Oid := [1, 35, 69, 103, 137, 171, 205, 239, 1, 35, 69, 103]

/-! ## Theorems -/

/-! ### Helper lemmas (shared) -/

theorem hexVal_hexDigitChar (n : Nat) (h : n < 16) : hexVal (hexDigitChar n) = n := by
  interval_cases n <;> rfl

theorem isHexChar_hexDigitChar (n : Nat) (h : n < 16) :
    isHexChar (hexDigitChar n) = true := by
  interval_cases n <;> rfl

theorem length_renderChars (oid : Oid) : (renderChars oid).length = 2 * oid.length := by
  induction oid with
  | nil => rfl
  | cons b rest ih => simp [renderChars, ih]; omega

theorem all_isHexChar_renderChars (oid : Oid) (h : ∀ b ∈ oid, b < 256) :
    (renderChars oid).all isHexChar = true := by
  induction oid with
  | nil => rfl
  | cons b rest ih =>
    have hb : b < 256 := h b (List.mem_cons_self b rest)
    simp only [renderChars, List.all_cons, Bool.and_eq_true]
    refine ⟨isHexChar_hexDigitChar _ (by omega), isHexChar_hexDigitChar _ (by omega),
      ih fun x hx => h x (List.mem_cons_of_mem _ hx)⟩

theorem hexDecode_renderChars (oid : Oid) (h : ∀ b ∈ oid, b < 256) :
    hexDecode (renderChars oid) = oid := by
  induction oid with
  | nil => rfl
  | cons b rest ih =>
    have hb : b < 256 := h b (List.mem_cons_self b rest)
    simp only [renderChars, hexDecode, List.cons.injEq,
      hexVal_hexDigitChar _ (show b / 16 < 16 by omega),
      hexVal_hexDigitChar _ (show b % 16 < 16 by omega)]
    exact ⟨by omega, ih fun x hx => h x (List.mem_cons_of_mem _ hx)⟩

theorem find_one_after_update (db : List Todo) (oid : Oid) (cur : Todo)
    (T : String) (D : Bool) (h : find_one db oid = some cur) :
    find_one (update_one_set db oid T D) oid = some ⟨cur._id, T, D⟩ := by
  induction db with
  | nil => simp [find_one] at h
  | cons t rest ih =>
    by_cases ht : t._id = some oid
    · simp only [find_one, ht, if_pos, Option.some.injEq] at h
      subst h
      simp [update_one_set, ht, find_one]
    · simp only [find_one, ht, if_neg, ite_false] at h
      simp [update_one_set, ht, find_one, ih h]

theorem update_one_set_self (db : List Todo) (oid : Oid) (cur : Todo)
    (h : find_one db oid = some cur) :
    update_one_set db oid cur.title cur.is_done = db := by
  induction db with
  | nil => simp [find_one] at h
  | cons t rest ih =>
    by_cases ht : t._id = some oid
    · simp only [find_one, ht, if_pos, Option.some.injEq] at h
      subst h
      simp only [update_one_set]
      rw [if_pos ht]
    · simp only [find_one, ht, if_neg, ite_false] at h
      simp [update_one_set, ht, ih h]

theorem map_id_update_one_set (db : List Todo) (oid : Oid) (T : String) (D : Bool) :
    (update_one_set db oid T D).map (fun t => t._id) = db.map (fun t => t._id) := by
  induction db with
  | nil => rfl
  | cons t rest ih =>
    by_cases ht : t._id = some oid <;> simp [update_one_set, ht, ih]

/-! ### Claim theorems -/

/-- C2 (counterexample): the spec's error-body table claims
`BadRequest(m)` serializes as the flat string `"BadRequest(<m>)"` under the
`message` key; on the code, `err_msg` routes the variant through the derived
serde `Serialize`, producing the nested externally tagged object instead. -/
theorem err_body_shape_counterexample :
    (ResErr.BadRequest "boom").err_msg ≠ "\x7b\"message\":\"BadRequest(boom)\"\x7d"
    ∧ (ResErr.BadRequest "boom").err_msg
        = "\x7b\"message\":\x7b\"BadRequest\":\"boom\"\x7d\x7d" := by
  constructor
  · decide
  · decide

/-- C2 (amended): `BadRequest(m)` yields
`\x7b"message":\x7b"BadRequest":<m>\x7d\x7d` and `NotFound(m)` yields
`\x7b"message":\x7b"NotFound":<m>\x7d\x7d` (the externally tagged serde
rendering nested under `message`), while `InvalidObjectId(raw_id, reason)`
yields `\x7b"id": raw_id, "message": reason\x7d` exactly as the table
states. -/
theorem err_body_shape_amended (m id reason : String) :
    (ResErr.BadRequest m).err_msg
      = "\x7b\"message\":\x7b\"BadRequest\":" ++ jsonString m ++ "\x7d\x7d"
    ∧ (ResErr.NotFound m).err_msg
      = "\x7b\"message\":\x7b\"NotFound\":" ++ jsonString m ++ "\x7d\x7d"
    ∧ (ResErr.InvalidObjectId id reason).err_msg
      = "\x7b\"id\":" ++ jsonString id ++ ",\"message\":" ++ jsonString reason ++ "\x7d" := by
  refine ⟨?_, ?_, rfl⟩ <;>
  · simp only [ResErr.err_msg, serializeResErr, String.append_assoc]
    rw [← String.append_assoc]
    congr

/-- C6: every classified error carries status 400 (BadRequest,
InvalidObjectId) or 404 (NotFound) and nothing else — in particular no error
ever has a 5xx status. -/
theorem error_status_codes :
    ∀ e : ResErr,
      (e.status_code = 400 ∨ e.status_code = 404)
      ∧ e.status_code < 500
      ∧ (e.status_code = 404 ↔ ∃ m, e = ResErr.NotFound m)
      ∧ (e.status_code = 400 ↔
          (∃ m, e = ResErr.BadRequest m) ∨ ∃ a b, e = ResErr.InvalidObjectId a b) := by
  intro e
  cases e <;> simp [ResErr.status_code]

/-- C7: the seeding loop runs over the inclusive range `0..=seed`, so with
seed parameter 1 the task inserts 2 records (`Random 0`, `Random 1`), one
more than the configured count — for every N > 0 the batch has N + 1
records; seed 0 leaves the collection untouched. -/
theorem seeder_off_by_one (rng : Nat → Bool) (db : List CreateTodo) :
    (seeder_main rng 1 []).length = 2
    ∧ seeder_main rng 1 [] = [⟨"Random 0", rng 0⟩, ⟨"Random 1", rng 1⟩]
    ∧ seeder_main rng 0 db = db
    ∧ ∀ n, (seedTodos rng n).length = n + 1 := by
  refine ⟨rfl, rfl, rfl, fun n => ?_⟩
  simp [seedTodos]

/-- C10: the list handler does not validate `page_num`: with the explicit
input `page_num = 0` the u64 expression `(page_num - 1) * page_size`
underflows before any store call — the checked (debug) evaluation is
undefined, so the handler produces no response at all rather than an error
response, and the wrapping (release) evaluation of the default-size skip is
the huge value 2^64 − 10. -/
theorem page_num_zero_underflow (db : List Todo) (f c : StoreOutcome) (ps : Option Nat) :
    get_todos db f c ⟨some 0, ps⟩ = none
    ∧ skipChecked 0 (ps.getD 10) = none
    ∧ skipWrapping 0 10 = 18446744073709551606 := by
  refine ⟨?_, ?_, by decide⟩
  · simp [get_todos, skipChecked]
  · simp [skipChecked]

/-- C1: for an update whose id parses and whose target exists, the persisted
record afterwards carries the input title when present (else the prior
title) and the input is_done when present (else the prior is_done), with the
identifier untouched; an update with neither optional field present leaves
the collection exactly as it was. -/
theorem update_merge_semantics (db : List Todo) (input : UpdateTodo) (oid : Oid)
    (cur : Todo) (hp : parse_str input.id = .ok oid)
    (hf : find_one db oid = some cur) :
    (update_todo db .ok .ok input).2 = .ok ⟨input.id⟩
    ∧ find_one (update_todo db .ok .ok input).1 oid
        = some ⟨cur._id, input.title.getD cur.title, input.is_done.getD cur.is_done⟩
    ∧ (input.title = none → input.is_done = none →
        (update_todo db .ok .ok input).1 = db) := by
  have hdb : (update_todo db .ok .ok input).1
      = update_one_set db oid (input.title.getD cur.title)
          (input.is_done.getD cur.is_done) := by
    simp [update_todo, hp, hf]
  refine ⟨by simp [update_todo, hp, hf], ?_, ?_⟩
  · rw [hdb]
    exact find_one_after_update db oid cur _ _ hf
  · intro h1 h2
    rw [hdb, h1, h2]
    simpa using update_one_set_self db oid cur hf

/-- C1 witness. -/
theorem update_merge_semantics_witness :
    parse_str "0123456789abcdef01234567" = .ok oidW
    ∧ find_one [⟨some oidW, "a", false⟩] oidW = some ⟨some oidW, "a", false⟩
    ∧ ((update_todo [⟨some oidW, "a", false⟩] .ok .ok
          ⟨"0123456789abcdef01234567", some "b", none⟩).2
        = .ok ⟨"0123456789abcdef01234567"⟩
      ∧ find_one (update_todo [⟨some oidW, "a", false⟩] .ok .ok
            ⟨"0123456789abcdef01234567", some "b", none⟩).1 oidW
        = some ⟨some oidW, (some "b").getD "a", (none : Option Bool).getD false⟩
      ∧ ((some "b" : Option String) = none → (none : Option Bool) = none →
          (update_todo [⟨some oidW, "a", false⟩] .ok .ok
            ⟨"0123456789abcdef01234567", some "b", none⟩).1
          = [⟨some oidW, "a", false⟩])) :=
  ⟨by decide, by decide,
    update_merge_semantics [⟨some oidW, "a", false⟩]
      ⟨"0123456789abcdef01234567", some "b", none⟩ oidW ⟨some oidW, "a", false⟩
      (by decide) (by decide)⟩

/-- C3: an id that fails the codec makes get-one, update and delete return
`InvalidObjectId` with the raw input and the parser's reason (status 400);
the result does not depend on the collection or on any store-call outcome,
and the collection is returned unchanged — no store operation happens. -/
theorem invalid_id_rejected_no_store_op (id e : String)
    (hp : parse_str id = .error e) (db : List Todo)
    (f₁ f₂ f₃ u d : StoreOutcome) (t : Option String) (b : Option Bool) :
    get_todo db f₁ id = .error (.InvalidObjectId id e)
    ∧ update_todo db f₂ u ⟨id, t, b⟩ = (db, .error (.InvalidObjectId id e))
    ∧ delete_todo db f₃ d id = (db, .error (.InvalidObjectId id e))
    ∧ (ResErr.InvalidObjectId id e).status_code = 400 := by
  refine ⟨?_, ?_, ?_, rfl⟩ <;> simp [get_todo, update_todo, delete_todo, hp]

/-- C3 witness. -/
theorem invalid_id_rejected_no_store_op_witness :
    parse_str "abc" = .error "invalid length 3"
    ∧ (get_todo [] (.fail "down") "abc"
        = .error (.InvalidObjectId "abc" "invalid length 3")
      ∧ update_todo [] (.fail "down") .ok ⟨"abc", none, none⟩
        = ([], .error (.InvalidObjectId "abc" "invalid length 3"))
      ∧ delete_todo [] (.fail "down") .ok "abc"
        = ([], .error (.InvalidObjectId "abc" "invalid length 3"))
      ∧ (ResErr.InvalidObjectId "abc" "invalid length 3").status_code = 400) :=
  ⟨by decide,
    invalid_id_rejected_no_store_op "abc" "invalid length 3" (by decide) []
      (.fail "down") (.fail "down") (.fail "down") .ok .ok none none⟩

/-- C4: a well-formed id matching no record splits by operation: get-one is
404 NotFound with message `todo with id of <id> is not found`, update is 400
BadRequest "todo not found", delete is 400 BadRequest `<id> doesn't exist`
— absence is a 404 only for get-one. -/
theorem absent_record_status_split (id : String) (oid : Oid) (db : List Todo)
    (hp : parse_str id = .ok oid) (hf : find_one db oid = none)
    (t : Option String) (b : Option Bool) :
    get_todo db .ok id
      = .error (.NotFound ("todo with id of " ++ id ++ " is not found"))
    ∧ (ResErr.NotFound ("todo with id of " ++ id ++ " is not found")).status_code = 404
    ∧ update_todo db .ok .ok ⟨id, t, b⟩ = (db, .error (.BadRequest "todo not found"))
    ∧ (ResErr.BadRequest "todo not found").status_code = 400
    ∧ delete_todo db .ok .ok id
      = (db, .error (.BadRequest (id ++ " doesn\x27t exist")))
    ∧ (ResErr.BadRequest (id ++ " doesn\x27t exist")).status_code = 400 := by
  refine ⟨?_, rfl, ?_, rfl, ?_, rfl⟩ <;>
    simp [get_todo, update_todo, delete_todo, hp, hf]

/-- C4 witness. -/
theorem absent_record_status_split_witness :
    parse_str "0123456789abcdef01234567" = .ok oidW
    ∧ find_one [] oidW = none
    ∧ (get_todo [] .ok "0123456789abcdef01234567"
        = .error (.NotFound
            ("todo with id of " ++ "0123456789abcdef01234567" ++ " is not found"))
      ∧ (ResErr.NotFound
          ("todo with id of " ++ "0123456789abcdef01234567" ++ " is not found")).status_code
          = 404
      ∧ update_todo [] .ok .ok ⟨"0123456789abcdef01234567", none, none⟩
        = ([], .error (.BadRequest "todo not found"))
      ∧ (ResErr.BadRequest "todo not found").status_code = 400
      ∧ delete_todo [] .ok .ok "0123456789abcdef01234567"
        = ([], .error (.BadRequest ("0123456789abcdef01234567" ++ " doesn\x27t exist")))
      ∧ (ResErr.BadRequest
          ("0123456789abcdef01234567" ++ " doesn\x27t exist")).status_code = 400) :=
  ⟨by decide, by decide,
    absent_record_status_split "0123456789abcdef01234567" oidW [] (by decide)
      (by decide) none none⟩

/-- C5: the list handler queries the window skip = (page_num − 1) ×
page_size, limit = page_size, with page_num defaulting to 1 and page_size to
10, and answers 200 with the collected slice; a window past the end of the
collection is the empty array, never an error. -/
theorem list_pagination_window (db : List Todo) (q : TodosQuery)
    (hpn : 1 ≤ q.page_num.getD 1)
    (hov : (q.page_num.getD 1 - 1) * q.page_size.getD 10 < U64) :
    get_todos db .ok .ok q
      = some (.ok (findMany db ((q.page_num.getD 1 - 1) * q.page_size.getD 10)
          (q.page_size.getD 10)))
    ∧ findMany db ((q.page_num.getD 1 - 1) * q.page_size.getD 10) (q.page_size.getD 10)
      = (db.drop ((q.page_num.getD 1 - 1) * q.page_size.getD 10)).take
          (q.page_size.getD 10)
    ∧ (∀ skip limit, db.length ≤ skip → findMany db skip limit = []) := by
  refine ⟨?_, rfl, ?_⟩
  · simp [get_todos, skipChecked, hpn, hov]
  · intro skip limit h
    simp [findMany, List.drop_eq_nil_of_le h]

/-- C5 witness: page 2 of size 2 over five records gives records 3 and 4;
the defaults also evaluate; a window past the end is empty. -/
theorem list_pagination_window_witness :
    1 ≤ (TodosQuery.mk (some 2) (some 2)).page_num.getD 1
    ∧ ((TodosQuery.mk (some 2) (some 2)).page_num.getD 1 - 1)
        * (TodosQuery.mk (some 2) (some 2)).page_size.getD 10 < U64
    ∧ (get_todos [⟨none, "t1", false⟩, ⟨none, "t2", true⟩, ⟨none, "t3", false⟩,
          ⟨none, "t4", true⟩, ⟨none, "t5", false⟩] .ok .ok ⟨some 2, some 2⟩
        = some (.ok (findMany [⟨none, "t1", false⟩, ⟨none, "t2", true⟩,
            ⟨none, "t3", false⟩, ⟨none, "t4", true⟩, ⟨none, "t5", false⟩]
            (((TodosQuery.mk (some 2) (some 2)).page_num.getD 1 - 1)
              * (TodosQuery.mk (some 2) (some 2)).page_size.getD 10)
            ((TodosQuery.mk (some 2) (some 2)).page_size.getD 10)))
      ∧ findMany [⟨none, "t1", false⟩, ⟨none, "t2", true⟩, ⟨none, "t3", false⟩,
            ⟨none, "t4", true⟩, ⟨none, "t5", false⟩]
            (((TodosQuery.mk (some 2) (some 2)).page_num.getD 1 - 1)
              * (TodosQuery.mk (some 2) (some 2)).page_size.getD 10)
            ((TodosQuery.mk (some 2) (some 2)).page_size.getD 10)
        = ([⟨none, "t1", false⟩, ⟨none, "t2", true⟩, ⟨none, "t3", false⟩,
            ⟨none, "t4", true⟩, ⟨none, "t5", false⟩].drop
            (((TodosQuery.mk (some 2) (some 2)).page_num.getD 1 - 1)
              * (TodosQuery.mk (some 2) (some 2)).page_size.getD 10)).take
            ((TodosQuery.mk (some 2) (some 2)).page_size.getD 10)
      ∧ (∀ skip limit,
          ([⟨none, "t1", false⟩, ⟨none, "t2", true⟩, ⟨none, "t3", false⟩,
            ⟨none, "t4", true⟩, ⟨none, "t5", false⟩] : List Todo).length ≤ skip →
          findMany [⟨none, "t1", false⟩, ⟨none, "t2", true⟩, ⟨none, "t3", false⟩,
            ⟨none, "t4", true⟩, ⟨none, "t5", false⟩] skip limit = [])) :=
  ⟨by decide, by decide,
    list_pagination_window [⟨none, "t1", false⟩, ⟨none, "t2", true⟩,
      ⟨none, "t3", false⟩, ⟨none, "t4", true⟩, ⟨none, "t5", false⟩]
      ⟨some 2, some 2⟩ (by decide) (by decide)⟩

/-- C8: rendering a store-produced identifier and parsing the text back is
the identity (rendering is total by construction), and parsing succeeds
exactly on 24-character hex strings. -/
theorem oid_codec_roundtrip (oid : Oid) (h : ValidOid oid) (s : String) :
    parse_str (to_hex oid) = .ok oid
    ∧ ((∃ o, parse_str s = .ok o) ↔ (s.length = 24 ∧ s.data.all isHexChar = true)) := by
  constructor
  · obtain ⟨hlen, hbytes⟩ := h
    have hL : (renderChars oid).length = 24 := by
      simp [length_renderChars, hlen]
    have hA : ∀ x ∈ renderChars oid, isHexChar x = true :=
      List.all_eq_true.mp (all_isHexChar_renderChars oid hbytes)
    simp [parse_str, to_hex, hL, hexDecode_renderChars oid hbytes]
    exact hA
  · unfold parse_str
    by_cases h24 : s.length = 24
    · by_cases hall : s.data.all isHexChar = true
      · simp [h24, hall]
      · simp [h24, hall]
    · simp [h24]

/-- C8 witness. -/
theorem oid_codec_roundtrip_witness :
    ValidOid oidW
    ∧ (parse_str (to_hex oidW) = .ok oidW
      ∧ ((∃ o, parse_str "zz1122334455667788990011" = .ok o)
          ↔ ("zz1122334455667788990011".length = 24
            ∧ "zz1122334455667788990011".data.all isHexChar = true))) :=
  ⟨by decide, oid_codec_roundtrip oidW (by decide) "zz1122334455667788990011"⟩

/-- C9: the update handler never writes a record's `_id`: along every path
(parse failure, store failures, absent target, successful `$set`), the list
of identifiers in the collection is unchanged. -/
theorem update_preserves_id (db : List Todo) (f u : StoreOutcome)
    (input : UpdateTodo) :
    ((update_todo db f u input).1).map (fun t => t._id)
      = db.map (fun t => t._id) := by
  rcases hp : parse_str input.id with e | oid
  · simp [update_todo, hp]
  · rcases f with _ | e
    · rcases hf : find_one db oid with _ | found
      · simp [update_todo, hp, hf]
      · rcases u with _ | e
        · simp [update_todo, hp, hf, map_id_update_one_set]
        · simp [update_todo, hp, hf]
    · simp [update_todo, hp]

end TaskTracker
